import Mathlib

set_option autoImplicit false

/-!
Verification of the keplr-wallet query engine specification.

The core engine (`ObservableQuery` in `packages/stores/src/common/query`) is
exercised by `query.spec.ts` in the repository; its behaviour is modelled here
from the specification as an explicit event-driven state machine over a
`QueryState`, with the test server's sequential-integer Transport embedded as
counters.  The swap-route subclass (`ObservableQueryRouteInner` /
`ObservableQueryRoute`) is embedded directly from its source.
-/

namespace KeplrQuery

/-- One in-flight Transport request: its fetch generation and whether it was
forced by `fetch()`/`waitFreshResponse()` (targeting fresh data) as opposed to
being triggered by observation. -/
structure Request where
  gen : Nat
  isFresh : Bool
deriving DecidableEq, Repr

/-- Modelled from the spec: the test Transport of `query.spec.ts` — it returns
the sequential integers `nextNum, nextNum+1, ...` on successive completed
requests, counts how many requests were started and how many were cancelled
before completing. -/
structure Transport where
  nextNum : Nat
  started : Nat
  cancelCount : Nat
deriving DecidableEq, Repr

/-- A stored response: the payload returned by the Transport and the fetch
generation that produced it. -/
structure Resp where
  data : Nat
  gen : Nat
deriving DecidableEq, Repr

/-- Result delivered to a waiter. -/
inductive Outcome where
  | ok (v : Nat)
  | err (msg : String)
deriving DecidableEq, Repr

/-- A pending `waitResponse` (`isFresh = false`) or `waitFreshResponse`
(`isFresh = true`) call.  A fresh waiter only accepts a response whose
generation is at least `requiredGen`; `outcome` is set exactly once. -/
structure Waiter where
  isFresh : Bool
  requiredGen : Nat
  outcome : Option Outcome
deriving DecidableEq, Repr

/-- Modelled from the spec: the state of one `ObservableQuery` (the engine
implementation is absent from the sources; only its test suite is present).
Fields follow section 3 of the specification; `isFetching` is derived from
`inFlight`, and the Transport counters are carried alongside. -/
structure QueryState where
  response : Option Resp
  error : Option String
  realObservers : Nat
  syntheticObservers : Nat
  isObserved : Bool
  isStarted : Bool
  pendingTeardown : Bool
  canFetch : Bool
  nextGen : Nat
  inFlight : List Request
  waiters : List Waiter
  transport : Transport
deriving DecidableEq, Repr

/-- Total observer count: real (UI-driven) observers plus the synthetic
observers kept alive by wait coordinators. -/
def totalObservers (s : QueryState) : Nat :=
  s.realObservers + s.syntheticObservers

/-- `isFetching` is true iff a request is currently in flight. -/
def isFetching (s : QueryState) : Bool :=
  !s.inFlight.isEmpty

/-- Modelled from the spec: start a new Transport request, cancelling any
in-flight one first (the cancel-then-start rule of section 4.3).  Gated on
`canFetch` (the overridable guard of the `ObservableQuery` base class). -/
def startFetch (fresh : Bool) (s : QueryState) : QueryState :=
  if s.canFetch then
    { s with
      inFlight := [⟨s.nextGen, fresh⟩],
      nextGen := s.nextGen + 1,
      transport := { s.transport with
        started := s.transport.started + 1,
        cancelCount := s.transport.cancelCount + s.inFlight.length } }
  else s

/-- Mark the query observed and cancel any pending debounced teardown. -/
def markObserved (s : QueryState) : QueryState :=
  { s with isObserved := true, isStarted := true, pendingTeardown := false }

/-- Modelled from the spec: a real observer subscribes.  On the 0 to 1
transition the query becomes observed/started and a fetch is triggered unless
an existing response or in-flight request already satisfies it. -/
def subscribeOp (s : QueryState) : QueryState :=
  let t := totalObservers s
  let s1 := markObserved { s with realObservers := s.realObservers + 1 }
  if t = 0 ∧ s.response.isNone ∧ s.inFlight.isEmpty then startFetch false s1 else s1

/-- Modelled from the spec: a wait coordinator registers its synthetic
observer; same trigger rule as `subscribeOp`. -/
def addSynthetic (s : QueryState) : QueryState :=
  let t := totalObservers s
  let s1 := markObserved { s with syntheticObservers := s.syntheticObservers + 1 }
  if t = 0 ∧ s.response.isNone ∧ s.inFlight.isEmpty then startFetch false s1 else s1

/-- Register a synthetic observer without the fetch-trigger rule; used by
`waitFreshResponse`, whose forced fetch supersedes the observation trigger. -/
def addSyntheticNoTrigger (s : QueryState) : QueryState :=
  markObserved { s with syntheticObservers := s.syntheticObservers + 1 }

/-- If the observer count has reached zero, clear the observed/started flags
and schedule the debounced teardown. -/
def teardownCheck (s : QueryState) : QueryState :=
  if totalObservers s = 0 then
    { s with isObserved := false, isStarted := false, pendingTeardown := true }
  else s

/-- Modelled from the spec: a real observer unsubscribes; on the 1 to 0
transition the flags drop and a debounced teardown is scheduled. -/
def unsubscribeOp (s : QueryState) : QueryState :=
  teardownCheck { s with realObservers := s.realObservers - 1 }

/-- Remove `k` synthetic observers (waiters that have just been resolved). -/
def dropSynthetics (k : Nat) (s : QueryState) : QueryState :=
  teardownCheck { s with syntheticObservers := s.syntheticObservers - k }

/-- Modelled from the spec: the debounce grace window elapses.  If the
teardown is still pending and nobody re-subscribed, the in-flight request (if
any) is cancelled; `response` and `error` are untouched. -/
def debounceOp (s : QueryState) : QueryState :=
  if s.pendingTeardown ∧ totalObservers s = 0 then
    { s with
      pendingTeardown := false,
      inFlight := [],
      transport := { s.transport with
        cancelCount := s.transport.cancelCount + s.inFlight.length } }
  else s

/-- Modelled from the spec: the `fetch()` refresh entry point — cancel any
in-flight request, then start a new one targeting fresh data. -/
def fetchOp (s : QueryState) : QueryState :=
  startFetch true s

/-- Modelled from the spec: `waitResponse()`.  If a response exists and no
fetch is outstanding, resolve immediately with it; otherwise register a
synthetic observer (triggering a fetch if required) and a plain waiter. -/
def waitResponseOp (s : QueryState) : QueryState :=
  match s.response, s.inFlight with
  | some r, [] =>
    { s with waiters := s.waiters ++ [⟨false, 0, some (Outcome.ok r.data)⟩] }
  | _, _ =>
    let s1 := addSynthetic s
    { s1 with waiters := s1.waiters ++ [⟨false, 0, none⟩] }

/-- Force a fresh fetch and register a fresh waiter tied to its generation. -/
def forceFreshFetch (s : QueryState) : QueryState :=
  let g := s.nextGen
  let s2 := startFetch true s
  { s2 with waiters := s2.waiters ++ [⟨true, g, none⟩] }

/-- Modelled from the spec: `waitFreshResponse()`.  Registers a synthetic
observer; shares an in-flight fresh request if one exists, otherwise forces a
new fetch (cancel-then-start).  The waiter only accepts a response produced at
or after its tied generation. -/
def waitFreshOp (s : QueryState) : QueryState :=
  let s1 := addSyntheticNoTrigger s
  match s1.inFlight.head? with
  | some req =>
    if req.isFresh then
      { s1 with waiters := s1.waiters ++ [⟨true, req.gen, none⟩] }
    else forceFreshFetch s1
  | none => forceFreshFetch s1

/-- Does the completion of the request of generation `gen` resolve waiter
`w`?  Plain waiters accept any completed response; fresh waiters require
`requiredGen ≤ gen`. -/
def resolvesAt (gen : Nat) (w : Waiter) : Bool :=
  w.outcome.isNone && (!w.isFresh || Nat.ble w.requiredGen gen)

/-- Resolve waiter `w` with value `v` if the completion at `gen` reaches it. -/
def resolveWaiter (gen v : Nat) (w : Waiter) : Waiter :=
  if resolvesAt gen w then { w with outcome := some (Outcome.ok v) } else w

/-- Reject waiter `w` with error `msg` if the failure at `gen` reaches it. -/
def rejectWaiter (gen : Nat) (msg : String) (w : Waiter) : Waiter :=
  if resolvesAt gen w then { w with outcome := some (Outcome.err msg) } else w

/-- Modelled from the spec: the in-flight request completes successfully.
The Transport yields its next sequential integer; the response is stored
verbatim, `error` is cleared, matching waiters resolve and their synthetic
observers detach. -/
def completeOp (s : QueryState) : QueryState :=
  match s.inFlight.head? with
  | none => s
  | some req =>
    let v := s.transport.nextNum
    let k := (s.waiters.filter (resolvesAt req.gen)).length
    let s1 := { s with
      inFlight := [],
      response := some ⟨v, req.gen⟩,
      error := none,
      waiters := s.waiters.map (resolveWaiter req.gen v),
      transport := { s.transport with nextNum := v + 1 } }
    dropSynthetics k s1

/-- Modelled from the spec: the in-flight request fails (non-cancellation).
`error` is set, the prior `response` is untouched, matching waiters reject. -/
def failOp (msg : String) (s : QueryState) : QueryState :=
  match s.inFlight.head? with
  | none => s
  | some req =>
    let k := (s.waiters.filter (resolvesAt req.gen)).length
    let s1 := { s with
      inFlight := [],
      error := some msg,
      waiters := s.waiters.map (rejectWaiter req.gen msg) }
    dropSynthetics k s1

/-- Events driving the engine: observer churn, the debounce timer, the public
operations, and Transport completion/failure. -/
inductive Ev where
  | subscribe
  | unsubscribe
  | debounce
  | fetchCall
  | waitResp
  | waitFresh
  | complete
  | fail (msg : String)
deriving DecidableEq, Repr

/-- One step of the engine. -/
def step : Ev → QueryState → QueryState
  | Ev.subscribe, s => subscribeOp s
  | Ev.unsubscribe, s => unsubscribeOp s
  | Ev.debounce, s => debounceOp s
  | Ev.fetchCall, s => fetchOp s
  | Ev.waitResp, s => waitResponseOp s
  | Ev.waitFresh, s => waitFreshOp s
  | Ev.complete, s => completeOp s
  | Ev.fail msg, s => failOp msg s

/-- Run a sequence of events from a state. -/
def run (evs : List Ev) (s : QueryState) : QueryState :=
  evs.foldl (fun t e => step e t) s

/-- Modelled from the spec: a freshly constructed Query over a Transport
whose next sequential payload is `firstNum`; nothing has been observed,
fetched, or stored. -/
def initQuery (canFetch : Bool) (firstNum : Nat) : QueryState :=
  { response := none
    error := none
    realObservers := 0
    syntheticObservers := 0
    isObserved := false
    isStarted := false
    pendingTeardown := false
    canFetch := canFetch
    nextGen := 0
    inFlight := []
    waiters := []
    transport := { nextNum := firstNum, started := 0, cancelCount := 0 } }

/-- The standard test query: fetchable, Transport counting from 0. -/
def initQ : QueryState := initQuery true 0

/-- Number of waiters that have not been resolved yet. -/
def countUnresolved (ws : List Waiter) : Nat :=
  (ws.filter (fun w => w.outcome.isNone)).length

/-- Well-formedness of a query state, decidably: the synthetic observer count
equals the number of unresolved waiters; an unresolved waiter implies an
in-flight request; and every unresolved fresh waiter is tied to a generation
no later than the in-flight request's. -/
def wfb (s : QueryState) : Bool :=
  (s.syntheticObservers == countUnresolved s.waiters)
  && (countUnresolved s.waiters == 0 || !s.inFlight.isEmpty)
  && s.waiters.all (fun w =>
      !(w.outcome.isNone && w.isFresh)
      || s.inFlight.all (fun r => Nat.ble w.requiredGen r.gen))

/-- Modelled from the spec: the registry key-to-instance map (`HasMapStore`,
absent from the sources; only its subclass `ObservableQueryRoute` is present).
An instance is represented by its creation index, so that "same instance
object" is expressible; a fresh entry is added at the front (position in the
map is irrelevant to lookups). -/
structure Registry where
  entries : List (String × Nat)
  nextId : Nat
deriving DecidableEq, Repr

/-- Look up the cached instance for a key. -/
def Registry.lookup? (r : Registry) (k : String) : Option Nat :=
  (r.entries.find? (fun e => e.1 == k)).map Prod.snd

/-- Modelled from the spec: `get(key)` — return the existing instance for the
key, or construct and cache a new one. -/
def Registry.getOrCreate (r : Registry) (k : String) : Nat × Registry :=
  match r.lookup? k with
  | some i => (i, r)
  | none => (r.nextId, { entries := (k, r.nextId) :: r.entries, nextId := r.nextId + 1 })

/-- A swap venue as passed to `ObservableQueryRoute.getRoute`. -/
structure SwapVenue where
  name : String
  chainId : String
deriving DecidableEq, Repr

/-- The parameter tuple of `ObservableQueryRoute.getRoute`, with
`sourceAmount`/`sourceDenom` already extracted from the `CoinPretty` amount
(`amount.toCoin().amount` and `amount.currency.coinMinimalDenom`). -/
structure RouteParams where
  sourceChainId : String
  sourceAmount : String
  sourceDenom : String
  destChainId : String
  destDenom : String
  affiliateFeeBps : Nat
  swapVenues : List SwapVenue
deriving DecidableEq, Repr

/-- JSON string escaping (quote and backslash; other `JSON.stringify` escapes
do not occur in chain ids/denoms and are omitted). -/
def jsonEscape (s : String) : String :=
  String.join (s.toList.map (fun c =>
    if c = Char.ofNat 34 then ("\\\"") else if c = Char.ofNat 92 then ("\\\\") else String.singleton c))

/-- A JSON string literal. -/
def jsonStr (s : String) : String :=
  "\"" ++ jsonEscape s ++ "\""

/-- `JSON.stringify` of one swap venue object. -/
def venueJson (v : SwapVenue) : String :=
  "\x7b\"name\":" ++ jsonStr v.name ++ ",\"chainId\":" ++ jsonStr v.chainId ++ "\x7d"

/-- `JSON.stringify` of an array given its elements' encodings. -/
def jsonArr (xs : List String) : String :=
  "[" ++ String.intercalate (",") xs ++ "]"

/-- The key string built by `ObservableQueryRoute.getRoute`: `JSON.stringify`
of the parameter object, in source field order. -/
def routeKey (p : RouteParams) : String :=
  "\x7b\"sourceChainId\":" ++ jsonStr p.sourceChainId
    ++ ",\"sourceAmount\":" ++ jsonStr p.sourceAmount
    ++ ",\"sourceDenom\":" ++ jsonStr p.sourceDenom
    ++ ",\"destChainId\":" ++ jsonStr p.destChainId
    ++ ",\"destDenom\":" ++ jsonStr p.destDenom
    ++ ",\"affiliateFeeBps\":" ++ toString p.affiliateFeeBps
    ++ ",\"swapVenues\":" ++ jsonArr (p.swapVenues.map venueJson) ++ "\x7d"

/-- `ObservableQueryRoute.getRoute`: serialize the parameter tuple to the key
string and delegate to the registry's get-or-create. -/
def getRoute (r : Registry) (p : RouteParams) : Nat × Registry :=
  r.getOrCreate (routeKey p)

/-- `ObservableQueryRouteInner.fetchResponse`: run the Transport call (its
outcome is `transportResult`), then validate the payload with the
collaborator-supplied schema check (`validate`, the Joi `Schema.validate` with
its error/value result encoded as `Except`); a validation error is thrown
exactly like a Transport error, and the validated value is returned as the
fetch's data. -/
def fetchResponse {α : Type} (transportResult : Except String (String × α))
    (validate : α → Except String α) : Except String (String × α) :=
  match transportResult with
  | Except.error e => Except.error e
  | Except.ok (h, d) =>
    match validate d with
    | Except.error e => Except.error e
    | Except.ok v => Except.ok (h, v)

/-- `ObservableQueryRouteInner.canFetch`: a falsy (empty) or zero
`sourceAmount` suppresses fetching; otherwise defer to the base class. -/
def routeCanFetch (sourceAmount : String) (superCanFetch : Bool) : Bool :=
  if sourceAmount.isEmpty ∨ sourceAmount = "0" then false else superCanFetch

lemma unsubscribeOp_response_eq (s : QueryState) :
    (unsubscribeOp s).response = s.response := by
  unfold unsubscribeOp teardownCheck
  split <;> rfl

lemma unsubscribeOp_error_eq (s : QueryState) :
    (unsubscribeOp s).error = s.error := by
  unfold unsubscribeOp teardownCheck
  split <;> rfl

lemma debounceOp_response_eq (s : QueryState) :
    (debounceOp s).response = s.response := by
  unfold debounceOp
  split <;> rfl

lemma debounceOp_error_eq (s : QueryState) :
    (debounceOp s).error = s.error := by
  unfold debounceOp
  split <;> rfl

lemma startFetch_response_eq (fresh : Bool) (s : QueryState) :
    (startFetch fresh s).response = s.response := by
  unfold startFetch
  split <;> rfl

lemma startFetch_error_eq (fresh : Bool) (s : QueryState) :
    (startFetch fresh s).error = s.error := by
  unfold startFetch
  split <;> rfl

/-- C5: constructing a Query performs no Transport call, and until the first
observation the flags satisfy `isFetching = isStarted = isObserved = false`
with `response` and `error` both undefined. -/
theorem construction_performs_no_fetch :
    ∀ (b : Bool) (n : Nat),
      (initQuery b n).transport.started = 0
      ∧ isFetching (initQuery b n) = false
      ∧ (initQuery b n).isStarted = false
      ∧ (initQuery b n).isObserved = false
      ∧ (initQuery b n).response = none
      ∧ (initQuery b n).error = none := by
  intro b n
  exact ⟨rfl, rfl, rfl, rfl, rfl, rfl⟩

/-- C6: the first observer subscription starts exactly one fetch
(`isFetching = isObserved = isStarted = true`, one Transport request started),
and once that fetch completes, the Transport's payload `n` is stored verbatim
in `response.data`. -/
theorem first_observation_triggers_single_fetch :
    ∀ (n : Nat),
      isFetching (step Ev.subscribe (initQuery true n)) = true
      ∧ (step Ev.subscribe (initQuery true n)).isObserved = true
      ∧ (step Ev.subscribe (initQuery true n)).isStarted = true
      ∧ (step Ev.subscribe (initQuery true n)).transport.started = 1
      ∧ (step Ev.complete (step Ev.subscribe (initQuery true n))).response
          = some { data := n, gen := 0 }
      ∧ ((step Ev.complete (step Ev.subscribe (initQuery true n))).response.map Resp.data)
          = some n := by
  intro n
  exact ⟨rfl, rfl, rfl, rfl, rfl, rfl⟩

/-- C1: on a sequential-integer Transport, the call sequence `waitResponse()`,
`waitFreshResponse()`, `waitResponse()`, `waitFreshResponse()` resolves with
0, 1, 1, 2 respectively, the Transport records zero cancellations, and only
the three necessary requests are started (no redundant or cancelled ones). -/
theorem waitFreshResponse_advances_monotonic_sequence :
    ((run [Ev.waitResp, Ev.complete, Ev.waitFresh, Ev.complete,
        Ev.waitResp, Ev.waitFresh, Ev.complete] initQ).waiters.map Waiter.outcome)
      = [some (Outcome.ok 0), some (Outcome.ok 1), some (Outcome.ok 1), some (Outcome.ok 2)]
    ∧ (run [Ev.waitResp, Ev.complete, Ev.waitFresh, Ev.complete,
        Ev.waitResp, Ev.waitFresh, Ev.complete] initQ).transport.cancelCount = 0
    ∧ (run [Ev.waitResp, Ev.complete, Ev.waitFresh, Ev.complete,
        Ev.waitResp, Ev.waitFresh, Ev.complete] initQ).transport.started = 3 := by
  exact ⟨by decide, by decide, by decide⟩

/-- C4: cancellation of an in-flight request — whether by the debounced
teardown after the observer count dropped to zero, or by a superseding
`fetch()` — never changes `error` or `response`; a firing teardown clears only
`isFetching` and the in-flight handle while counting the cancellation, and
`fetch()` cancels exactly the requests that were in flight. -/
theorem cancellation_preserves_response_and_error :
    (∀ s : QueryState,
      (debounceOp s).error = s.error ∧ (debounceOp s).response = s.response
      ∧ (fetchOp s).error = s.error ∧ (fetchOp s).response = s.response)
    ∧ (∀ s : QueryState, s.pendingTeardown = true → totalObservers s = 0 →
        (debounceOp s).inFlight = [] ∧ isFetching (debounceOp s) = false
        ∧ (debounceOp s).transport.cancelCount
            = s.transport.cancelCount + s.inFlight.length)
    ∧ (∀ s : QueryState, (fetchOp s).transport.cancelCount
        = s.transport.cancelCount + (if s.canFetch then s.inFlight.length else 0)) := by
  refine ⟨fun s => ⟨debounceOp_error_eq s, debounceOp_response_eq s,
      startFetch_error_eq true s, startFetch_response_eq true s⟩, fun s h1 h2 => ?_, fun s => ?_⟩
  · simp [debounceOp, h1, h2, isFetching]
  · unfold fetchOp startFetch
    cases hc : s.canFetch <;> simp [hc]

theorem cancellation_preserves_response_and_error_witness :
    ((run [Ev.subscribe, Ev.unsubscribe] initQ).pendingTeardown = true
      ∧ totalObservers (run [Ev.subscribe, Ev.unsubscribe] initQ) = 0)
    ∧ ((debounceOp (run [Ev.subscribe, Ev.unsubscribe] initQ)).inFlight = []
      ∧ isFetching (debounceOp (run [Ev.subscribe, Ev.unsubscribe] initQ)) = false
      ∧ (debounceOp (run [Ev.subscribe, Ev.unsubscribe] initQ)).transport.cancelCount
          = (run [Ev.subscribe, Ev.unsubscribe] initQ).transport.cancelCount
            + (run [Ev.subscribe, Ev.unsubscribe] initQ).inFlight.length) :=
  ⟨⟨by decide, by decide⟩,
    cancellation_preserves_response_and_error.2.1
      (run [Ev.subscribe, Ev.unsubscribe] initQ) (by decide) (by decide)⟩

lemma startFetch_inFlight_le (fresh : Bool) (s : QueryState)
    (h : s.inFlight.length ≤ 1) : (startFetch fresh s).inFlight.length ≤ 1 := by
  unfold startFetch
  split
  · exact Nat.le_refl 1
  · exact h

lemma addSynthetic_inFlight_le (s : QueryState)
    (h : s.inFlight.length ≤ 1) : (addSynthetic s).inFlight.length ≤ 1 := by
  unfold addSynthetic markObserved
  dsimp only
  split
  · exact startFetch_inFlight_le _ _ h
  · exact h

lemma step_inFlight_le (e : Ev) (s : QueryState)
    (h : s.inFlight.length ≤ 1) : (step e s).inFlight.length ≤ 1 := by
  cases e with
  | subscribe =>
    show (subscribeOp s).inFlight.length ≤ 1
    unfold subscribeOp markObserved
    dsimp only
    split
    · exact startFetch_inFlight_le _ _ h
    · exact h
  | unsubscribe =>
    show (unsubscribeOp s).inFlight.length ≤ 1
    unfold unsubscribeOp teardownCheck
    split <;> exact h
  | debounce =>
    show (debounceOp s).inFlight.length ≤ 1
    unfold debounceOp
    split
    · exact Nat.le_of_lt_succ (Nat.lt_succ_of_le (Nat.zero_le 1))
    · exact h
  | fetchCall => exact startFetch_inFlight_le _ _ h
  | waitResp =>
    show (waitResponseOp s).inFlight.length ≤ 1
    unfold waitResponseOp
    dsimp only
    split
    · exact h
    · exact addSynthetic_inFlight_le _ h
  | waitFresh =>
    show (waitFreshOp s).inFlight.length ≤ 1
    unfold waitFreshOp forceFreshFetch
    dsimp only
    have h1 : (addSyntheticNoTrigger s).inFlight.length ≤ 1 := h
    split
    · split
      · exact h1
      · exact startFetch_inFlight_le _ _ h1
    · exact startFetch_inFlight_le _ _ h1
  | complete =>
    show (completeOp s).inFlight.length ≤ 1
    unfold completeOp dropSynthetics teardownCheck
    dsimp only
    split
    · exact h
    · split <;> exact Nat.zero_le 1
  | fail msg =>
    show (failOp msg s).inFlight.length ≤ 1
    unfold failOp dropSynthetics teardownCheck
    dsimp only
    split
    · exact h
    · split <;> exact Nat.zero_le 1

lemma run_inFlight_le (evs : List Ev) :
    ∀ s : QueryState, s.inFlight.length ≤ 1 → (run evs s).inFlight.length ≤ 1 := by
  induction evs with
  | nil => intro s h; exact h
  | cons e evs ih => intro s h; exact ih (step e s) (step_inFlight_le e s h)

/-- C2: at most one Transport request is outstanding per Query at any time
(invariant along every event sequence from the initial state); `fetch()`
cancels exactly the in-flight requests before starting its own; and in the
concrete test run, invoking `fetch()` while a `waitResponse()` is pending on
the first request records exactly one cancellation, replaces the in-flight
request, and the waiter resolves with the new request's result. -/
theorem fetch_supersedes_inflight_request :
    (∀ evs : List Ev, (run evs initQ).inFlight.length ≤ 1)
    ∧ (∀ s : QueryState, (fetchOp s).transport.cancelCount
        = s.transport.cancelCount + (if s.canFetch then s.inFlight.length else 0))
    ∧ ((run [Ev.subscribe, Ev.waitResp] initQ).inFlight = [{ gen := 0, isFresh := false }]
      ∧ (run [Ev.subscribe, Ev.waitResp, Ev.fetchCall] initQ).inFlight
          = [{ gen := 1, isFresh := true }]
      ∧ (run [Ev.subscribe, Ev.waitResp, Ev.fetchCall] initQ).transport.cancelCount = 1
      ∧ ((run [Ev.subscribe, Ev.waitResp, Ev.fetchCall, Ev.complete] initQ).waiters.map
          Waiter.outcome) = [some (Outcome.ok 0)]
      ∧ (run [Ev.subscribe, Ev.waitResp, Ev.fetchCall, Ev.complete] initQ).response
          = some { data := 0, gen := 1 }
      ∧ (run [Ev.subscribe, Ev.waitResp, Ev.fetchCall, Ev.complete] initQ).transport.cancelCount
          = 1) := by
  refine ⟨fun evs => run_inFlight_le evs initQ (by decide), fun s => ?_, ?_⟩
  · unfold fetchOp startFetch
    cases hc : s.canFetch <;> simp [hc]
  · exact ⟨by decide, by decide, by decide, by decide, by decide, by decide⟩

/-- C7: disposing the only observer leaves `response` and `error` unchanged
(unobservation never clears a cached response) while `isObserved`,
`isStarted` and `isFetching` become false. -/
theorem unobservation_retains_last_response :
    (∀ s : QueryState,
      (unsubscribeOp s).response = s.response ∧ (unsubscribeOp s).error = s.error)
    ∧ (∀ s : QueryState,
        s.realObservers = 1 → s.syntheticObservers = 0 → s.inFlight = [] →
        (unsubscribeOp s).isObserved = false ∧ (unsubscribeOp s).isStarted = false
        ∧ isFetching (unsubscribeOp s) = false) := by
  refine ⟨fun s => ⟨unsubscribeOp_response_eq s, unsubscribeOp_error_eq s⟩,
    fun s h1 h2 h3 => ?_⟩
  simp [unsubscribeOp, teardownCheck, totalObservers, h1, h2, isFetching, h3]

theorem unobservation_retains_last_response_witness :
    ((unsubscribeOp (run [Ev.subscribe, Ev.complete] initQ)).response
        = (run [Ev.subscribe, Ev.complete] initQ).response
      ∧ (unsubscribeOp (run [Ev.subscribe, Ev.complete] initQ)).error
        = (run [Ev.subscribe, Ev.complete] initQ).error)
    ∧ ((unsubscribeOp (run [Ev.subscribe, Ev.complete] initQ)).isObserved = false
      ∧ (unsubscribeOp (run [Ev.subscribe, Ev.complete] initQ)).isStarted = false
      ∧ isFetching (unsubscribeOp (run [Ev.subscribe, Ev.complete] initQ)) = false) :=
  ⟨unobservation_retains_last_response.1 (run [Ev.subscribe, Ev.complete] initQ),
    unobservation_retains_last_response.2 (run [Ev.subscribe, Ev.complete] initQ)
      (by decide) (by decide) (by decide)⟩

lemma resolveWaiter_outcome_of (g v : Nat) (w : Waiter)
    (h : (!(w.outcome.isNone && w.isFresh)) = true ∨ Nat.ble w.requiredGen g = true) :
    (resolveWaiter g v w).outcome
      = if w.outcome = none then some (Outcome.ok v) else w.outcome := by
  cases ho : w.outcome with
  | some o => simp [resolveWaiter, resolvesAt, ho]
  | none =>
    cases hf : w.isFresh with
    | false => simp [resolveWaiter, resolvesAt, ho, hf]
    | true =>
      rcases h with hl | hr
      · simp [ho, hf] at hl
      · simp [resolveWaiter, resolvesAt, ho, hf, hr]

/-- C3: while a waiter is pending (a well-formed state with an unresolved
waiter), a transient observer subscribing and then unsubscribing, followed by
the debounce window elapsing, records no Transport cancellation and leaves
the in-flight request intact; the subsequent completion resolves every
previously pending waiter with that in-flight request's result. -/
theorem transient_observer_never_cancels (s : QueryState)
    (hwf : wfb s = true) (hp : 0 < countUnresolved s.waiters) :
    (run [Ev.subscribe, Ev.unsubscribe, Ev.debounce] s).transport.cancelCount
        = s.transport.cancelCount
    ∧ (run [Ev.subscribe, Ev.unsubscribe, Ev.debounce] s).inFlight = s.inFlight
    ∧ ((run [Ev.subscribe, Ev.unsubscribe, Ev.debounce, Ev.complete] s).waiters.map
          Waiter.outcome)
        = s.waiters.map (fun w => if w.outcome = none
            then some (Outcome.ok s.transport.nextNum) else w.outcome) := by
  simp only [wfb, Bool.and_eq_true, beq_iff_eq, Bool.or_eq_true, List.all_eq_true] at hwf
  obtain ⟨⟨hsynth, hor⟩, hall⟩ := hwf
  have hsp : 0 < s.syntheticObservers := by rw [hsynth]; exact hp
  obtain ⟨req, rest, heq⟩ : ∃ a l, s.inFlight = a :: l := by
    cases hif : s.inFlight with
    | nil =>
      rcases hor with hz | hne
      · rw [hz] at hp; exact absurd hp (by decide)
      · rw [hif] at hne; exact absurd hne (by decide)
    | cons a l => exact ⟨a, l, rfl⟩
  have hsub : subscribeOp s = markObserved { s with realObservers := s.realObservers + 1 } := by
    unfold subscribeOp
    dsimp only
    split
    · rename_i hc
      exfalso
      have := hc.1
      unfold totalObservers at this
      omega
    · rfl
  have huns : unsubscribeOp (markObserved { s with realObservers := s.realObservers + 1 })
      = markObserved s := by
    unfold unsubscribeOp teardownCheck markObserved
    dsimp only
    split
    · rename_i hc
      exfalso
      unfold totalObservers at hc
      dsimp only at hc
      omega
    · rfl
  have hdeb : debounceOp (markObserved s) = markObserved s := by
    unfold debounceOp markObserved
    dsimp only
    split
    · rename_i hc
      exact absurd hc.1 (by decide)
    · rfl
  have h3 : run [Ev.subscribe, Ev.unsubscribe, Ev.debounce] s = markObserved s := by
    show debounceOp (unsubscribeOp (subscribeOp s)) = markObserved s
    rw [hsub, huns, hdeb]
  refine ⟨by rw [h3]; rfl, by rw [h3]; rfl, ?_⟩
  have h4 : run [Ev.subscribe, Ev.unsubscribe, Ev.debounce, Ev.complete] s
      = completeOp (markObserved s) := by
    show completeOp (debounceOp (unsubscribeOp (subscribeOp s))) = completeOp (markObserved s)
    rw [hsub, huns, hdeb]
  rw [h4]
  have hw : (completeOp (markObserved s)).waiters
      = s.waiters.map (resolveWaiter req.gen s.transport.nextNum) := by
    unfold completeOp markObserved
    dsimp only
    rw [heq]
    dsimp only [List.head?]
    unfold dropSynthetics teardownCheck
    dsimp only
    split <;> rfl
  rw [hw, List.map_map]
  apply List.map_congr_left
  intro w hw2
  show (resolveWaiter req.gen s.transport.nextNum w).outcome = _
  refine resolveWaiter_outcome_of req.gen s.transport.nextNum w ?_
  rcases hall w hw2 with hleft | hright
  · exact Or.inl hleft
  · exact Or.inr (hright req (by rw [heq]; exact List.mem_cons_self req rest))

theorem transient_observer_never_cancels_witness :
    (wfb (run [Ev.subscribe, Ev.waitResp] initQ) = true
      ∧ 0 < countUnresolved (run [Ev.subscribe, Ev.waitResp] initQ).waiters)
    ∧ ((run [Ev.subscribe, Ev.unsubscribe, Ev.debounce]
          (run [Ev.subscribe, Ev.waitResp] initQ)).transport.cancelCount
        = (run [Ev.subscribe, Ev.waitResp] initQ).transport.cancelCount
      ∧ (run [Ev.subscribe, Ev.unsubscribe, Ev.debounce]
          (run [Ev.subscribe, Ev.waitResp] initQ)).inFlight
        = (run [Ev.subscribe, Ev.waitResp] initQ).inFlight
      ∧ ((run [Ev.subscribe, Ev.unsubscribe, Ev.debounce, Ev.complete]
          (run [Ev.subscribe, Ev.waitResp] initQ)).waiters.map Waiter.outcome)
        = (run [Ev.subscribe, Ev.waitResp] initQ).waiters.map
            (fun w => if w.outcome = none
              then some (Outcome.ok (run [Ev.subscribe, Ev.waitResp] initQ).transport.nextNum)
              else w.outcome)) :=
  ⟨⟨by decide, by decide⟩,
    transient_observer_never_cancels (run [Ev.subscribe, Ev.waitResp] initQ)
      (by decide) (by decide)⟩

/-- C8: the registry's get operation is idempotent — for every key,
`getOrCreate` returns the cached instance or creates one, and two calls with
equal keys yield the same instance and leave the registry unchanged on the
second call; consequently `ObservableQueryRoute.getRoute` with equal
parameter tuples (equal serialized key strings) yields the same
`ObservableQueryRouteInner` instance. -/
theorem registry_get_idempotent :
    (∀ (r : Registry) (k : String),
      ((r.getOrCreate k).2.getOrCreate k).1 = (r.getOrCreate k).1
      ∧ ((r.getOrCreate k).2.getOrCreate k).2 = (r.getOrCreate k).2)
    ∧ (∀ (r : Registry) (p : RouteParams),
      ((getRoute r p).2 |> (fun r2 => getRoute r2 p)).1 = (getRoute r p).1
      ∧ ((getRoute r p).2 |> (fun r2 => getRoute r2 p)).2 = (getRoute r p).2) := by
  have key : ∀ (r : Registry) (k : String),
      ((r.getOrCreate k).2.getOrCreate k).1 = (r.getOrCreate k).1
      ∧ ((r.getOrCreate k).2.getOrCreate k).2 = (r.getOrCreate k).2 := by
    intro r k
    unfold Registry.getOrCreate
    cases hl : r.lookup? k with
    | some i => simp [hl]
    | none =>
      have hl2 : (Registry.mk ((k, r.nextId) :: r.entries) (r.nextId + 1)).lookup? k
          = some r.nextId := by
        unfold Registry.lookup?
        simp [List.find?]
      simp [hl, hl2]
  exact ⟨key, fun r p => key r (routeKey p)⟩

/-- C9: in `ObservableQueryRouteInner.fetchResponse`, a payload that fails
the collaborator-supplied schema check is treated identically to a Transport
failure — the resulting fetch outcome is the very same error result a network
failure would produce — and a payload that passes validation is returned
(validated value) as the fetch's data alongside the headers. -/
theorem validation_failure_treated_as_transport_failure :
    (∀ (e : String) (v : Nat → Except String Nat),
      fetchResponse (Except.error e) v = Except.error e)
    ∧ (∀ (h : String) (d : Nat) (e : String) (v : Nat → Except String Nat),
        v d = Except.error e →
        fetchResponse (Except.ok (h, d)) v = fetchResponse (Except.error e) v)
    ∧ (∀ (h : String) (d val : Nat) (v : Nat → Except String Nat),
        v d = Except.ok val →
        fetchResponse (Except.ok (h, d)) v = Except.ok (h, val)) := by
  refine ⟨fun e v => rfl, fun h d e v hv => ?_, fun h d val v hv => ?_⟩
  · simp [fetchResponse, hv]
  · simp [fetchResponse, hv]

theorem validation_failure_treated_as_transport_failure_witness :
    ((fun n => if n = 0 then Except.error ("invalid") else Except.ok n) 0
        = (Except.error ("invalid") : Except String Nat)
      ∧ fetchResponse (Except.ok (("hdr"), 0))
          (fun n => if n = 0 then Except.error ("invalid") else Except.ok n)
        = fetchResponse (Except.error ("invalid"))
            (fun n => if n = 0 then Except.error ("invalid") else Except.ok n))
    ∧ ((fun n => if n = 0 then Except.error ("invalid") else Except.ok n) 7
        = (Except.ok 7 : Except String Nat)
      ∧ fetchResponse (Except.ok (("hdr"), 7))
          (fun n => if n = 0 then Except.error ("invalid") else Except.ok n)
        = Except.ok (("hdr"), 7)) :=
  ⟨⟨by rfl, validation_failure_treated_as_transport_failure.2.1 ("hdr") 0 ("invalid")
      (fun n => if n = 0 then Except.error ("invalid") else Except.ok n) (by rfl)⟩,
    ⟨by rfl, validation_failure_treated_as_transport_failure.2.2 ("hdr") 7 7
      (fun n => if n = 0 then Except.error ("invalid") else Except.ok n) (by rfl)⟩⟩

lemma step_preserves_no_canFetch (e : Ev) (s : QueryState) (h : s.canFetch = false) :
    (step e s).canFetch = false ∧ (step e s).transport.started = s.transport.started := by
  obtain ⟨resp, err, ro, so, io, ist, pt, cf, ng, infl, ws, tr⟩ := s
  dsimp only at h
  subst h
  cases e <;> cases infl <;> cases resp <;>
    simp [step, subscribeOp, addSynthetic, addSyntheticNoTrigger, markObserved,
      unsubscribeOp, teardownCheck, debounceOp, fetchOp, startFetch, waitResponseOp,
      waitFreshOp, forceFreshFetch, completeOp, failOp, dropSynthetics, apply_ite]

lemma run_no_canFetch_no_start (evs : List Ev) :
    ∀ s : QueryState, s.canFetch = false →
      (run evs s).transport.started = s.transport.started := by
  induction evs with
  | nil => intro s _; rfl
  | cons e evs ih =>
    intro s h
    have hs := step_preserves_no_canFetch e s h
    calc (run evs (step e s)).transport.started
        = (step e s).transport.started := ih (step e s) hs.1
      _ = s.transport.started := hs.2

/-- C10: `ObservableQueryRouteInner.canFetch` returns false whenever
`sourceAmount` is the empty string or `"0"` and defers to the base class
otherwise; with such a suppressed query, no event sequence (observation
included) ever starts a Transport request. -/
theorem route_canFetch_gates_fetching :
    (∀ b : Bool, routeCanFetch ("") b = false)
    ∧ (∀ b : Bool, routeCanFetch ("0") b = false)
    ∧ (∀ (a : String) (b : Bool), a ≠ "" → a ≠ "0" → routeCanFetch a b = b)
    ∧ (∀ (b : Bool) (n : Nat) (evs : List Ev),
        (run evs (initQuery (routeCanFetch ("") b) n)).transport.started = 0)
    ∧ (∀ (b : Bool) (n : Nat) (evs : List Ev),
        (run evs (initQuery (routeCanFetch ("0") b) n)).transport.started = 0) := by
  have he : ∀ b : Bool, routeCanFetch ("") b = false := by
    intro b
    cases b <;> decide
  have hz : ∀ b : Bool, routeCanFetch ("0") b = false := by
    intro b
    cases b <;> decide
  refine ⟨he, hz, fun a b ha1 ha2 => ?_, fun b n evs => ?_, fun b n evs => ?_⟩
  · unfold routeCanFetch
    rw [if_neg]
    intro hc
    rcases hc with hc | hc
    · exact ha1 ((String.isEmpty_iff a).mp hc)
    · exact ha2 hc
  · rw [run_no_canFetch_no_start evs (initQuery (routeCanFetch ("") b) n) (he b)]
    rfl
  · rw [run_no_canFetch_no_start evs (initQuery (routeCanFetch ("0") b) n) (hz b)]
    rfl

theorem route_canFetch_gates_fetching_witness :
    routeCanFetch ("12345") true = true ∧ routeCanFetch ("12345") false = false :=
  ⟨route_canFetch_gates_fetching.2.2.1 ("12345") true (by decide) (by decide),
    route_canFetch_gates_fetching.2.2.1 ("12345") false (by decide) (by decide)⟩

end KeplrQuery
